/-
Verification of the AliceO2 service-specification layer
(`Framework/Core/include/Framework/ServiceSpec.h`) and of the TPC raw
reader (`Detectors/TPC/reconstruction/include/TPCReconstruction/RawReader.h`)
against the natural-language specification of the repository.

C++ reference parameters are embedded by explicit state passing: a
parameter taken by non-const reference appears both as an argument and as
a component of the result, while a parameter taken by const reference
appears only as an argument.  `std::function` slots that may be `nullptr`
become `Option` of the corresponding function type.  C++ `std::map`
containers become key-sorted association lists, and map iterators become
indices into those lists (the index `length` playing the role of `end()`).
-/
import Mathlib

set_option maxHeartbeats 1000000

/-! ## Opaque collaborator types

The following context and device types are only forward-declared in
`ServiceSpec.h` (their definitions live outside the sources at hand); the
service layer treats them as opaque payloads handed to the callbacks, so
they are embedded as one-field records. -/

/-- Type-erased service instance state (the `void*` payloads of the
callback signatures). -/
abbrev ServiceData := Nat

/-- Modelled from the spec: `ServiceKind` comes from `ServiceHandle.h`,
which is not among the sources; the spec names the three scopes
`Serial`, `Global` and `Stream`. -/
inductive ServiceKind where
  | Serial
  | Global
  | Stream
deriving DecidableEq

/-- Modelled from the spec: `ServiceHandle` (from the missing
`ServiceHandle.h`) is the runtime binding of a descriptor: a type-erased
instance plus its scope and name. -/
structure ServiceHandle where
  serviceInstance : ServiceData
  kind : ServiceKind
  name : String
deriving DecidableEq

/-- The per-process service registry as seen by callbacks (the class is
forward-declared in `ServiceSpec.h`); per the spec it owns the service
handles of the process. -/
structure ServiceRegistry where
  handles : List ServiceHandle
deriving DecidableEq

/-- Forward-declared device state, embedded as an opaque payload. -/
structure DeviceState where
  payload : Nat
deriving DecidableEq

/-- FairMQ program options (`fair::mq::ProgOptions`), a parsed flat
key-value option map. -/
structure ProgOptions where
  entries : List (String × String)
deriving DecidableEq

/-- Parsed boost program options (`boost::program_options::variables_map`),
a flat key-value map. -/
structure VariablesMap where
  entries : List (String × String)
deriving DecidableEq

/-- Forward-declared init context, embedded as an opaque payload. -/
structure InitContext where
  payload : Nat
deriving DecidableEq

/-- Forward-declared processing context, embedded as an opaque payload. -/
structure ProcessingContext where
  payload : Nat
deriving DecidableEq

/-- Forward-declared dangling-inputs context, embedded as an opaque
payload. -/
structure DanglingContext where
  payload : Nat
deriving DecidableEq

/-- Forward-declared end-of-stream context, embedded as an opaque
payload. -/
structure EndOfStreamContext where
  payload : Nat
deriving DecidableEq

/-- Forward-declared configuration context, embedded as an opaque
payload. -/
structure ConfigContext where
  payload : Nat
deriving DecidableEq

/-- Modelled from the spec: `WorkflowSpecNode` is forward-declared in
`ServiceSpec.h`; per the spec the topology callbacks consume an external
graph representation of which this core mutates only the node list, so
the node is embedded as the list of node identifiers it exposes. -/
structure WorkflowSpecNode where
  nodes : List Nat
deriving DecidableEq

/-- Modelled from the spec: per-device metric information
(`DeviceMetricsInfo.h` is not among the sources); the spec describes the
snapshot format as a sequence of `(deviceId, metricName, value,
timestamp)` tuples. -/
structure DeviceMetricsInfo where
  tuples : List (Nat × String × Nat × Nat)
deriving DecidableEq

/-- Forward-declared device specification, embedded as an opaque
identifier. -/
structure DeviceSpec where
  id : Nat
deriving DecidableEq

/-- Forward-declared device runtime information, embedded as an opaque
identifier. -/
structure DeviceInfo where
  pid : Nat
deriving DecidableEq

/-! ## Callback types (`ServiceSpec.h`, lines 42-105)

Each alias mirrors one `using ... = std::function<...>` of the source;
non-const reference parameters reappear in the result, const reference
parameters do not. -/

/-- A callback to create a given Service
(`ServiceHandle(ServiceRegistry&, DeviceState&, fair::mq::ProgOptions&)`:
all three parameters are mutable references). -/
abbrev ServiceInit :=
  ServiceRegistry → DeviceState → ProgOptions →
    ServiceHandle × ServiceRegistry × DeviceState × ProgOptions

/-- A callback invoked whenever we start running
(`void(ServiceRegistry&, void*)`). -/
abbrev ServiceStartCallback := ServiceRegistry → ServiceData → ServiceRegistry × ServiceData

/-- A callback invoked whenever we stop running
(`void(ServiceRegistry&, void*)`). -/
abbrev ServiceStopCallback := ServiceRegistry → ServiceData → ServiceRegistry × ServiceData

/-- A callback invoked whenever we stop running completely
(`void(ServiceRegistry&, void*)`). -/
abbrev ServiceExitCallback := ServiceRegistry → ServiceData → ServiceRegistry × ServiceData

/-- A callback to configure a given Service
(`void*(InitContext&, void*)`: it returns the configured type-erased
instance and may mutate the context). -/
abbrev ServiceConfigureCallback := InitContext → ServiceData → ServiceData × InitContext

/-- A callback executed around each processing loop
(`void(ProcessingContext&, void*)`). -/
abbrev ServiceProcessingCallback :=
  ProcessingContext → ServiceData → ProcessingContext × ServiceData

/-- A callback executed around each dangling input loop
(`void(DanglingContext&, void*)`). -/
abbrev ServiceDanglingCallback := DanglingContext → ServiceData → DanglingContext × ServiceData

/-- A callback executed around the end of stream loop
(`void(EndOfStreamContext&, void*)`). -/
abbrev ServiceEOSCallback :=
  EndOfStreamContext → ServiceData → EndOfStreamContext × ServiceData

/-- Callback executed before the forking of a given device in the driver
(`void(ServiceRegistry&, boost::program_options::variables_map const&)`:
the options are a const reference, hence absent from the result). -/
abbrev ServicePreFork := ServiceRegistry → VariablesMap → ServiceRegistry

/-- Callback executed in the child after forking a given device in the
driver (`void(ServiceRegistry&)`: note that no options are passed). -/
abbrev ServicePostForkChild := ServiceRegistry → ServiceRegistry

/-- Callback executed in the parent after forking a given device in the
driver (`void(ServiceRegistry&)`: note that no options are passed). -/
abbrev ServicePostForkParent := ServiceRegistry → ServiceRegistry

/-- Callback executed before each redeployment of the whole configuration
(`void(ServiceRegistry&, variables_map const&)`). -/
abbrev ServicePreSchedule := ServiceRegistry → VariablesMap → ServiceRegistry

/-- Callback executed after each redeployment of the whole configuration
(`void(ServiceRegistry&, variables_map const&)`). -/
abbrev ServicePostSchedule := ServiceRegistry → VariablesMap → ServiceRegistry

/-- The mutable-reference parameters of `ServiceMetricHandling`, gathered
as the result state of one metric-handling invocation. -/
structure MetricDispatchState where
  registry : ServiceRegistry
  metrics : List DeviceMetricsInfo
  specs : List DeviceSpec
  infos : List DeviceInfo
  driverMetrics : DeviceMetricsInfo
deriving DecidableEq

/-- Callback executed in the driver in order to process a metric
(`void(ServiceRegistry&, vector<DeviceMetricsInfo>&, vector<DeviceSpec>&,
vector<DeviceInfo>&, DeviceMetricsInfo&, size_t)`: every container is a
mutable reference, only the timestamp is by value). -/
abbrev ServiceMetricHandling :=
  ServiceRegistry → List DeviceMetricsInfo → List DeviceSpec → List DeviceInfo →
    DeviceMetricsInfo → Nat → MetricDispatchState

/-- Callback executed in the child after dispatching happened
(`void(ProcessingContext&, void*)`). -/
abbrev ServicePostDispatching :=
  ProcessingContext → ServiceData → ProcessingContext × ServiceData

/-- Callback invoked when the driver enters the init phase
(`void(ServiceRegistry&, variables_map const&)`). -/
abbrev ServiceDriverInit := ServiceRegistry → VariablesMap → ServiceRegistry

/-- Callback invoked when starting the driver
(`void(ServiceRegistry&, variables_map const&)`). -/
abbrev ServiceDriverStartup := ServiceRegistry → VariablesMap → ServiceRegistry

/-- Callback invoked when we inject internal devices in the topology
(`void(WorkflowSpecNode&, ConfigContext&)`: both parameters mutable). -/
abbrev ServiceTopologyInject :=
  WorkflowSpecNode → ConfigContext → WorkflowSpecNode × ConfigContext

/-- Callback invoked when we amend the topology
(`void(WorkflowSpecNode&, ConfigContext const&)`: the node is a mutable
reference but the configuration context is const). -/
abbrev ServiceTopologyAdjust := WorkflowSpecNode → ConfigContext → WorkflowSpecNode

/-! ## The service descriptor (`ServiceSpec.h`, lines 113-172) -/

/-- A specification for a Service: its name, its twenty-two optional
lifecycle callback slots (each `nullptr`, i.e. `none`, unless bound), and
its kind.  Field order and defaults follow the C++ struct. -/
structure ServiceSpec where
  name : String := "please specify name"
  init : Option ServiceInit := none
  configure : Option ServiceConfigureCallback := none
  preProcessing : Option ServiceProcessingCallback := none
  postProcessing : Option ServiceProcessingCallback := none
  preDangling : Option ServiceDanglingCallback := none
  postDangling : Option ServiceDanglingCallback := none
  preEOS : Option ServiceEOSCallback := none
  postEOS : Option ServiceEOSCallback := none
  preFork : Option ServicePreFork := none
  postForkChild : Option ServicePostForkChild := none
  postForkParent : Option ServicePostForkParent := none
  preSchedule : Option ServicePreSchedule := none
  postSchedule : Option ServicePostSchedule := none
  metricHandling : Option ServiceMetricHandling := none
  postDispatching : Option ServicePostDispatching := none
  start : Option ServiceStartCallback := none
  stop : Option ServiceStopCallback := none
  exit : Option ServiceExitCallback := none
  driverInit : Option ServiceDriverInit := none
  driverStartup : Option ServiceDriverStartup := none
  injectTopology : Option ServiceTopologyInject := none
  adjustTopology : Option ServiceTopologyAdjust := none
  kind : ServiceKind := ServiceKind.Serial

/-- A default-constructed service descriptor, with every field at its
C++ default member initializer. -/
def defaultServiceSpec : ServiceSpec := {}

/-! ## Registry build-time registration

The registry class itself is only forward-declared in the sources; its
registration behaviour is modelled from the spec. -/

/-- Error taxonomy entry for duplicate registration. -/
inductive RegistrationError where
  | duplicateNameKind
deriving DecidableEq

/-- The descriptor-level view of the service registry at build time: the
descriptors registered so far, in registration order (the spec requires
insertion order to be preserved for deterministic callback firing). -/
structure ServiceSpecRegistry where
  specs : List ServiceSpec

/-- Whether some registered descriptor already carries the given
`(name, kind)` registry key. -/
def hasNameKind (r : ServiceSpecRegistry) (name : String) (kind : ServiceKind) : Bool :=
  r.specs.any fun s => decide (s.name = name) && decide (s.kind = kind)

/-- Modelled from the spec: `register(descriptor) -> RegistrationError |
void` of the Service Registry (whose class body is not among the
sources) fails when the `(name, kind)` key is already present and
otherwise appends the descriptor, preserving insertion order. -/
def registerSpec (r : ServiceSpecRegistry) (d : ServiceSpec) :
    Option RegistrationError × ServiceSpecRegistry :=
  if hasNameKind r d.name d.kind then
    (some RegistrationError.duplicateNameKind, r)
  else
    (none, { specs := r.specs ++ [d] })

/-- A registry already holding a `monitor`/`Serial` descriptor. -/
def monitorRegistry : ServiceSpecRegistry :=
  { specs := [{ name := "monitor", kind := ServiceKind.Serial }] }

/-- A second `monitor`/`Serial` descriptor with different callback
content (it binds `init` and `preProcessing`). -/
def monitorDuplicate : ServiceSpec :=
  { name := "monitor"
    kind := ServiceKind.Serial
    init := some fun r s o => (⟨1, ServiceKind.Serial, "monitor"⟩, r, s, o)
    preProcessing := some fun c s => (c, s + 1) }

/-! ## Metrics dispatch

The Metrics Sink Adapter is not among the sources; its dispatch loop is
modelled from the spec, threading the mutable-reference parameters of the
`ServiceMetricHandling` signature through the registered callbacks in
registration order. -/

/-- Modelled from the spec: `dispatch(metricSnapshots, specs, infos,
timestamp)` of the Metrics Sink Adapter (not among the sources) invokes
every registered `metricHandling` callback, in registration order, on the
state reached so far; the snapshot travels through the mutable references
of the callback signature. -/
def dispatchMetrics (callbacks : List ServiceMetricHandling)
    (st : MetricDispatchState) (timestamp : Nat) : MetricDispatchState :=
  callbacks.foldl
    (fun s f => f s.registry s.metrics s.specs s.infos s.driverMetrics timestamp) st

/-- A metric-handling callback that prepends an entry to the metrics
vector it receives by mutable reference. -/
def snapshotMutator : ServiceMetricHandling :=
  fun r m s i d _ => ⟨r, ⟨[]⟩ :: m, s, i, d⟩

/-- A metric-handling callback that only appends to the driver-side
aggregate, leaving the metrics, specs and infos snapshot untouched. -/
def driverMetricsTicker : ServiceMetricHandling :=
  fun r m s i d t => ⟨r, m, s, i, ⟨(0, "tick", t, t) :: d.tuples⟩⟩

/-- A concrete metric-dispatch state. -/
def mdState0 : MetricDispatchState :=
  ⟨⟨[]⟩, [⟨[(7, "cpu", 3, 11)]⟩], [⟨7⟩], [⟨1234⟩], ⟨[]⟩⟩

/-! ## Invocation of the option-consuming callbacks

These wrappers make the const-reference discipline of the callback
signatures explicit: the options object after the call is the very
object that was passed in. -/

/-- Invoke a `preFork` callback: the registry reference may be updated;
the options, taken by const reference, are returned as they were
passed. -/
def invokePreFork (f : ServicePreFork) (r : ServiceRegistry) (o : VariablesMap) :
    ServiceRegistry × VariablesMap :=
  (f r o, o)

/-- Invoke a `preSchedule` callback; the options are a const reference. -/
def invokePreSchedule (f : ServicePreSchedule) (r : ServiceRegistry) (o : VariablesMap) :
    ServiceRegistry × VariablesMap :=
  (f r o, o)

/-- Invoke a `postSchedule` callback; the options are a const
reference. -/
def invokePostSchedule (f : ServicePostSchedule) (r : ServiceRegistry) (o : VariablesMap) :
    ServiceRegistry × VariablesMap :=
  (f r o, o)

/-- An `init` callback that writes a key into the FairMQ options it
receives by mutable reference. -/
def optionWritingInit : ServiceInit :=
  fun r s o => (⟨0, ServiceKind.Serial, "svc"⟩, r, s, ⟨("injected", "true") :: o.entries⟩)

/-! ## Topology pass

The driver loop that fires the topology callbacks is not among the
sources; the pass ordering is modelled from the spec. -/

/-- Modelled from the spec: the inject phase of topology creation (driver
code not among the sources) fires every registered `injectTopology`
callback in order, each receiving the node and the configuration context
by mutable reference. -/
def runInjectPhase (injects : List ServiceTopologyInject)
    (wc : WorkflowSpecNode × ConfigContext) : WorkflowSpecNode × ConfigContext :=
  injects.foldl (fun p f => f p.1 p.2) wc

/-- Modelled from the spec: the adjust phase of topology creation (driver
code not among the sources) fires every registered `adjustTopology`
callback in order on the finalized node, the configuration context being
a const reference. -/
def runAdjustPhase (adjusts : List ServiceTopologyAdjust)
    (w : WorkflowSpecNode) (c : ConfigContext) : WorkflowSpecNode :=
  adjusts.foldl (fun wn f => f wn c) w

/-- Modelled from the spec: one topology (re)creation pass — all
`injectTopology` callbacks fire first, then all `adjustTopology`
callbacks fire on the augmented node with the post-inject configuration
context held const. -/
def runTopologyPass (injects : List ServiceTopologyInject)
    (adjusts : List ServiceTopologyAdjust) (w : WorkflowSpecNode) (c : ConfigContext) :
    WorkflowSpecNode × ConfigContext :=
  let p := runInjectPhase injects (w, c)
  (runAdjustPhase adjusts p.1 p.2, p.2)

/-- An `injectTopology` callback adding one auxiliary node (id 42). -/
def injectAux : ServiceTopologyInject :=
  fun w c => (⟨w.nodes ++ [42]⟩, c)

/-- An `adjustTopology` callback that removes the last node of the list
it receives by mutable reference. -/
def adjustDropLast : ServiceTopologyAdjust :=
  fun w _ => ⟨w.nodes.dropLast⟩

/-- An `adjustTopology` callback that only validates, leaving the node
list unchanged. -/
def adjustValidate : ServiceTopologyAdjust :=
  fun w _ => w

/-! ## Per-phase service handles (`ServiceSpec.h`, lines 174-220)

Each handle couples a const reference to the originating descriptor with
the bound callback and the type-erased service instance.  Invoking a
handle runs the callback on the handle's service and the phase context;
only the mutable parts (service instance, context, registry) are
updated. -/

/-- Handle for the configure phase (`ServiceSpec const& spec; callback;
void* service`). -/
structure ServiceConfigureHandle where
  spec : ServiceSpec
  callback : ServiceConfigureCallback
  service : ServiceData

/-- Handle for the processing phases. -/
structure ServiceProcessingHandle where
  spec : ServiceSpec
  callback : ServiceProcessingCallback
  service : ServiceData

/-- Handle for the dangling-input phases. -/
structure ServiceDanglingHandle where
  spec : ServiceSpec
  callback : ServiceDanglingCallback
  service : ServiceData

/-- Handle for the end-of-stream phases. -/
structure ServiceEOSHandle where
  spec : ServiceSpec
  callback : ServiceEOSCallback
  service : ServiceData

/-- Handle for the post-dispatching phase. -/
structure ServiceDispatchingHandle where
  spec : ServiceSpec
  callback : ServicePostDispatching
  service : ServiceData

/-- Handle for the start transition. -/
structure ServiceStartHandle where
  spec : ServiceSpec
  callback : ServiceStartCallback
  service : ServiceData

/-- Handle for the stop transition. -/
structure ServiceStopHandle where
  spec : ServiceSpec
  callback : ServiceStopCallback
  service : ServiceData

/-- Handle for the exit transition. -/
structure ServiceExitHandle where
  spec : ServiceSpec
  callback : ServiceExitCallback
  service : ServiceData

/-- Run a configure handle: the callback returns the configured
type-erased instance and may mutate the init context. -/
def ServiceConfigureHandle.invoke (h : ServiceConfigureHandle) (c : InitContext) :
    ServiceConfigureHandle × InitContext :=
  let p := h.callback c h.service
  ({ h with service := p.1 }, p.2)

/-- Run a processing handle on a processing context. -/
def ServiceProcessingHandle.invoke (h : ServiceProcessingHandle) (c : ProcessingContext) :
    ServiceProcessingHandle × ProcessingContext :=
  let p := h.callback c h.service
  ({ h with service := p.2 }, p.1)

/-- Run a dangling handle on a dangling context. -/
def ServiceDanglingHandle.invoke (h : ServiceDanglingHandle) (c : DanglingContext) :
    ServiceDanglingHandle × DanglingContext :=
  let p := h.callback c h.service
  ({ h with service := p.2 }, p.1)

/-- Run an end-of-stream handle on an end-of-stream context. -/
def ServiceEOSHandle.invoke (h : ServiceEOSHandle) (c : EndOfStreamContext) :
    ServiceEOSHandle × EndOfStreamContext :=
  let p := h.callback c h.service
  ({ h with service := p.2 }, p.1)

/-- Run a dispatching handle on a processing context. -/
def ServiceDispatchingHandle.invoke (h : ServiceDispatchingHandle) (c : ProcessingContext) :
    ServiceDispatchingHandle × ProcessingContext :=
  let p := h.callback c h.service
  ({ h with service := p.2 }, p.1)

/-- Run a start handle against the registry. -/
def ServiceStartHandle.invoke (h : ServiceStartHandle) (r : ServiceRegistry) :
    ServiceStartHandle × ServiceRegistry :=
  let p := h.callback r h.service
  ({ h with service := p.2 }, p.1)

/-- Run a stop handle against the registry. -/
def ServiceStopHandle.invoke (h : ServiceStopHandle) (r : ServiceRegistry) :
    ServiceStopHandle × ServiceRegistry :=
  let p := h.callback r h.service
  ({ h with service := p.2 }, p.1)

/-- Run an exit handle against the registry. -/
def ServiceExitHandle.invoke (h : ServiceExitHandle) (r : ServiceRegistry) :
    ServiceExitHandle × ServiceRegistry :=
  let p := h.callback r h.service
  ({ h with service := p.2 }, p.1)

/-! ## TPC raw reader (`TPCReconstruction/RawReader.h`)

The reader's `std::map` members become key-sorted association lists and
the data iterator becomes an index into the data list, the index
`mData.length` playing the role of `end()`.  Word-sized C++ integers
become `Nat` (with explicit `% 2 ^ 64` where 64-bit overflow matters) and
`int64_t` becomes `Int`. -/

/-- Data header struct of the raw reader (`RawReader::Header`). -/
structure Header where
  dataType : Nat
  reserved01 : Nat
  headerVersion : Nat
  nWords : Nat
  timeStampW : Nat
  eventCountW : Nat
  reserved2W : Nat
deriving DecidableEq

/-- Corrected header time stamp: `(timeStamp_w << 32) | (timeStamp_w >>
32)` on a 64-bit word swaps its two 32-bit halves. -/
def Header.timeStamp (h : Header) : Nat :=
  ((h.timeStampW <<< 32) % 2 ^ 64) ||| (h.timeStampW >>> 32)

/-- Corrected event counter, with the two 32-bit halves swapped. -/
def Header.eventCount (h : Header) : Nat :=
  ((h.eventCountW <<< 32) % 2 ^ 64) ||| (h.eventCountW >>> 32)

/-- Corrected reserved data field, with the two 32-bit halves swapped. -/
def Header.reserved (h : Header) : Nat :=
  ((h.reserved2W <<< 32) % 2 ^ 64) ||| (h.reserved2W >>> 32)

/-- Per-event bookkeeping record of the raw reader
(`RawReader::eventData`): file path, position, region, FEC link and the
parsed header. -/
structure EventData where
  path : String
  posInFile : Int
  region : Int
  link : Int
  headerInfo : Header
deriving DecidableEq

/-- Local pad position (row and pad within a region), from the TPC base
library; only its role as an ordered map key matters here. -/
structure PadPos where
  row : Nat
  pad : Nat
deriving DecidableEq

/-- The mutable state of a `RawReader`: the number of the last loaded
event, the time stamp of the first decoded ADC value, the event index
(`std::map<uint64_t, ...>`, key-sorted), the ADC data of the last loaded
event (`std::map<PadPos, ...>`, key-sorted) with its traversal iterator,
and the sync-pattern positions. -/
structure RawReaderState where
  mLastEvent : Int
  mTimestampOfFirstData : Nat
  mEvents : List (Nat × List EventData)
  mData : List (PadPos × List Nat)
  mDataIterator : Nat
  mSyncPos : List Int
deriving DecidableEq

/-- Get the first event: the source returns `mEvents.begin()->first`;
on an empty index `begin()` is the past-the-end iterator and the
dereference has no defined value, which the embedding renders as
`none`. -/
def getFirstEvent (r : RawReaderState) : Option Nat :=
  r.mEvents.head?.map (·.1)

/-- Get the last event: the source returns `mEvents.begin()->first` when
`mEvents.size() == 0` — again a dereference of the past-the-end
iterator, rendered as `none` — and `mEvents.rbegin()->first`
otherwise. -/
def getLastEvent (r : RawReaderState) : Option Nat :=
  if r.mEvents.length = 0 then r.mEvents.head?.map (·.1)
  else r.mEvents.getLast?.map (·.1)

/-- Get the number of stored events (`mEvents.size()`). -/
def getNumberOfEvents (r : RawReaderState) : Nat :=
  r.mEvents.length

/-- Get the time stamp of the first decoded ADC value. -/
def getTimeStamp (r : RawReaderState) : Nat :=
  r.mTimestampOfFirstData

/-- Get data for a pad position: the iterator member is set to
`mData.find(padPos)`; when that is `end()` a newly created empty vector
is returned, otherwise the stored ADC vector.  The returned pointer is
`some` in both branches — `none` stands for `nullptr`. -/
def getData (r : RawReaderState) (padPos : PadPos) :
    Option (List Nat) × RawReaderState :=
  let i := r.mData.findIdx fun e => decide (e.1 = padPos)
  match r.mData[i]? with
  | none => (some [], { r with mDataIterator := i })
  | some e => (some e.2, { r with mDataIterator := i })

/-- Get data of the next pad position: `nullptr` when the iterator is at
`end()`; otherwise the entry under the iterator is returned (its key
through the `padPos` out-parameter, here the first component) and the
iterator advances. -/
def getNextData (r : RawReaderState) :
    Option (PadPos × List Nat) × RawReaderState :=
  match r.mData[r.mDataIterator]? with
  | none => (none, r)
  | some e => (some e, { r with mDataIterator := r.mDataIterator + 1 })

/-- Modelled from the spec: `RawReader::loadEvent` is declared in the
header ("Reads (and decodes) given event, @return Indicator of success")
but implemented outside the sources at hand.  The model succeeds exactly
when the event number is present in the event index; on success it
records the event as the last loaded one, replaces the loaded ADC data
by the decoded data of that event — decoding actual files is abstracted
by the `decode` parameter — and rewinds the data iterator (the
repository's test iterates `getNextData` right after `loadEvent`).
Time-stamp bookkeeping is not modelled. -/
def loadEvent (decode : Nat → List (PadPos × List Nat)) (r : RawReaderState)
    (event : Int) : Bool × RawReaderState :=
  if 0 ≤ event then
    if r.mEvents.any (fun e => decide ((e.1 : Int) = event)) then
      (true, { r with
                 mLastEvent := event
                 mData := decode event.toNat
                 mDataIterator := 0 })
    else (false, r)
  else (false, r)

/-- Reads (and decodes) the next event: the source body is
`return loadEvent(mLastEvent + 1)`. -/
def loadNextEvent (decode : Nat → List (PadPos × List Nat))
    (r : RawReaderState) : Bool × RawReaderState :=
  loadEvent decode r (r.mLastEvent + 1)

/-- A reader holding one loaded event whose data map has a single pad
entry, with the iterator freshly rewound. -/
def rrBase : RawReaderState :=
  { mLastEvent := 0
    mTimestampOfFirstData := 0
    mEvents := [(0, [])]
    mData := [(⟨0, 0⟩, [42])]
    mDataIterator := 0
    mSyncPos := [-1, -1, -1, -1, -1] }

/-- The reader after the call history `getData ⟨0, 0⟩` on `rrBase`: the
iterator rests on the found entry. -/
def rrHistA : RawReaderState :=
  (getData rrBase ⟨0, 0⟩).2

/-- The reader after the longer call history `getData ⟨0, 0⟩;
getNextData` on `rrBase`: the iterator has reached `end()`. -/
def rrHistB : RawReaderState :=
  (getNextData rrHistA).2

/-- A reader whose event index is empty (no input file produced any
event). -/
def rrNoEvents : RawReaderState :=
  { mLastEvent := -1
    mTimestampOfFirstData := 0
    mEvents := []
    mData := []
    mDataIterator := 0
    mSyncPos := [-1, -1, -1, -1, -1] }

/-- A reader whose event index holds the events 3, 5 and 9. -/
def rrThreeEvents : RawReaderState :=
  { mLastEvent := -1
    mTimestampOfFirstData := 0
    mEvents := [(3, []), (5, []), (9, [])]
    mData := []
    mDataIterator := 0
    mSyncPos := [-1, -1, -1, -1, -1] }

/-! ## Theorems -/

/-- C1: the service descriptor provides exactly the callback slots named
in the spec — every descriptor is fully determined by its name, its kind
and the twenty-two named slots (so there are no further slots), each slot
holds either `none` or a bound function value, and a default-constructed
descriptor has every callback slot unset. -/
theorem serviceSpec_exact_slots_default_unset :
    (∀ s : ServiceSpec,
      s = ⟨s.name, s.init, s.configure, s.preProcessing, s.postProcessing,
           s.preDangling, s.postDangling, s.preEOS, s.postEOS, s.preFork,
           s.postForkChild, s.postForkParent, s.preSchedule, s.postSchedule,
           s.metricHandling, s.postDispatching, s.start, s.stop, s.exit,
           s.driverInit, s.driverStartup, s.injectTopology, s.adjustTopology,
           s.kind⟩) ∧
    defaultServiceSpec.init = none ∧
    defaultServiceSpec.configure = none ∧
    defaultServiceSpec.preProcessing = none ∧
    defaultServiceSpec.postProcessing = none ∧
    defaultServiceSpec.preDangling = none ∧
    defaultServiceSpec.postDangling = none ∧
    defaultServiceSpec.preEOS = none ∧
    defaultServiceSpec.postEOS = none ∧
    defaultServiceSpec.preFork = none ∧
    defaultServiceSpec.postForkChild = none ∧
    defaultServiceSpec.postForkParent = none ∧
    defaultServiceSpec.preSchedule = none ∧
    defaultServiceSpec.postSchedule = none ∧
    defaultServiceSpec.metricHandling = none ∧
    defaultServiceSpec.postDispatching = none ∧
    defaultServiceSpec.start = none ∧
    defaultServiceSpec.stop = none ∧
    defaultServiceSpec.exit = none ∧
    defaultServiceSpec.driverInit = none ∧
    defaultServiceSpec.driverStartup = none ∧
    defaultServiceSpec.injectTopology = none ∧
    defaultServiceSpec.adjustTopology = none :=
  ⟨fun _ => rfl, rfl, rfl, rfl, rfl, rfl, rfl, rfl, rfl, rfl, rfl, rfl, rfl,
   rfl, rfl, rfl, rfl, rfl, rfl, rfl, rfl, rfl, rfl⟩

/-- C2: registering a descriptor whose `(name, kind)` key is already
present fails with `RegistrationError`, for every registry state and
every such descriptor (hence regardless of its callback content), and
leaves the registry unchanged. -/
theorem registerSpec_duplicate_fails (r : ServiceSpecRegistry) (d : ServiceSpec)
    (h : hasNameKind r d.name d.kind = true) :
    registerSpec r d = (some RegistrationError.duplicateNameKind, r) := by
  simp [registerSpec, h]

/-- Witness for C2: a `monitor`/`Serial` descriptor with different
callback content is rejected by a registry already holding that key, and
the registry is returned unchanged. -/
theorem registerSpec_duplicate_fails_witness :
    hasNameKind monitorRegistry monitorDuplicate.name monitorDuplicate.kind = true ∧
    registerSpec monitorRegistry monitorDuplicate =
      (some RegistrationError.duplicateNameKind, monitorRegistry) :=
  ⟨rfl, registerSpec_duplicate_fails monitorRegistry monitorDuplicate rfl⟩

/-- Counterexample for C3: the `ServiceMetricHandling` signature passes
the metrics, specs and infos by mutable reference, so a registered
callback can change the snapshot — dispatching `snapshotMutator` over a
concrete state changes the metrics vector. -/
theorem dispatchMetrics_snapshot_mutable :
    (dispatchMetrics [snapshotMutator] mdState0 7).metrics ≠ mdState0.metrics := by
  decide

/-- C3 (amended): when every registered `metricHandling` callback leaves
the metrics, specs and infos it receives unchanged — the read-only
obligation the spec places on callbacks — the whole dispatch leaves the
snapshot unchanged (and therefore every callback observed that same
snapshot). -/
theorem dispatchMetrics_preserves_snapshot (callbacks : List ServiceMetricHandling)
    (st : MetricDispatchState) (t : Nat)
    (h : ∀ f ∈ callbacks, ∀ r m s i d,
      (f r m s i d t).metrics = m ∧ (f r m s i d t).specs = s ∧ (f r m s i d t).infos = i) :
    (dispatchMetrics callbacks st t).metrics = st.metrics ∧
    (dispatchMetrics callbacks st t).specs = st.specs ∧
    (dispatchMetrics callbacks st t).infos = st.infos := by
  induction callbacks generalizing st with
  | nil => exact ⟨rfl, rfl, rfl⟩
  | cons f fs ih =>
    have hstep :=
      h f (List.mem_cons_self f fs) st.registry st.metrics st.specs st.infos st.driverMetrics
    have htail := ih (f st.registry st.metrics st.specs st.infos st.driverMetrics t)
      (fun g hg => h g (List.mem_cons_of_mem f hg))
    simp only [dispatchMetrics, List.foldl_cons] at htail ⊢
    exact ⟨htail.1.trans hstep.1, htail.2.1.trans hstep.2.1, htail.2.2.trans hstep.2.2⟩

/-- Witness for C3 (amended): a callback that only accumulates into the
driver-side aggregate satisfies the read-only obligation, and dispatching
it leaves the concrete snapshot unchanged. -/
theorem dispatchMetrics_preserves_snapshot_witness :
    (dispatchMetrics [driverMetricsTicker] mdState0 5).metrics = mdState0.metrics ∧
    (dispatchMetrics [driverMetricsTicker] mdState0 5).specs = mdState0.specs ∧
    (dispatchMetrics [driverMetricsTicker] mdState0 5).infos = mdState0.infos :=
  dispatchMetrics_preserves_snapshot [driverMetricsTicker] mdState0 5
    (fun f hf => by
      rw [List.mem_singleton] at hf
      subst hf
      exact fun r m s i d => ⟨rfl, rfl, rfl⟩)

/-- Counterexample for C4: `ServiceInit` receives the FairMQ program
options by mutable reference, so invoking an `init` callback need not
leave the options structure unchanged — `optionWritingInit` changes it at
a concrete input. -/
theorem serviceInit_can_write_options :
    (optionWritingInit ⟨[]⟩ ⟨0⟩ ⟨[]⟩).2.2.2 ≠ (⟨[]⟩ : ProgOptions) := by
  decide

/-- C4 (amended): the parsed variables-map options are passed by const
reference into `preFork`, `preSchedule` and `postSchedule`, so invoking
any of those callbacks returns the options exactly as they were passed
(`postForkChild`/`postForkParent` receive no options at all, and `init`
receives the FairMQ options mutably). -/
theorem optionCallbacks_const_reference :
    (∀ (f : ServicePreFork) (r : ServiceRegistry) (o : VariablesMap),
      (invokePreFork f r o).2 = o) ∧
    (∀ (f : ServicePreSchedule) (r : ServiceRegistry) (o : VariablesMap),
      (invokePreSchedule f r o).2 = o) ∧
    (∀ (f : ServicePostSchedule) (r : ServiceRegistry) (o : VariablesMap),
      (invokePostSchedule f r o).2 = o) :=
  ⟨fun _ _ _ => rfl, fun _ _ _ => rfl, fun _ _ _ => rfl⟩

/-- Counterexample for C5: `adjustTopology` receives the workflow node by
mutable reference, so an adjust callback can make structural changes —
after `injectAux` adds node 42, `adjustDropLast` removes it, and the node
list after the adjust phase differs from the node list the phase
received. -/
theorem adjustTopology_can_remove_nodes :
    (runTopologyPass [injectAux] [adjustDropLast] ⟨[1]⟩ ⟨0⟩).1.nodes ≠
      (runInjectPhase [injectAux] (⟨[1]⟩, ⟨0⟩)).1.nodes := by
  decide

/-- C5 (amended): the adjust phase runs on the inject-augmented node with
the post-inject configuration context held const — the pass returns that
context unchanged — and whenever every `adjustTopology` callback
preserves the node list (the read-mostly discipline the spec describes),
the node list after the pass equals the inject-augmented one. -/
theorem adjustTopology_observes_augmented_nodes (injects : List ServiceTopologyInject)
    (adjusts : List ServiceTopologyAdjust) (w : WorkflowSpecNode) (c : ConfigContext)
    (h : ∀ f ∈ adjusts, ∀ w' : WorkflowSpecNode,
      (f w' (runInjectPhase injects (w, c)).2).nodes = w'.nodes) :
    (runTopologyPass injects adjusts w c).2 = (runInjectPhase injects (w, c)).2 ∧
    (runTopologyPass injects adjusts w c).1.nodes =
      (runInjectPhase injects (w, c)).1.nodes := by
  refine ⟨rfl, ?_⟩
  show (runAdjustPhase adjusts (runInjectPhase injects (w, c)).1
    (runInjectPhase injects (w, c)).2).nodes = (runInjectPhase injects (w, c)).1.nodes
  generalize (runInjectPhase injects (w, c)).2 = cfg at h
  generalize (runInjectPhase injects (w, c)).1 = w0
  induction adjusts generalizing w0 with
  | nil => rfl
  | cons f fs ih =>
    have hf := h f (List.mem_cons_self f fs)
    have hrest := fun g hg => h g (List.mem_cons_of_mem f hg)
    have htail := ih hrest (f w0 cfg)
    simp only [runAdjustPhase, List.foldl_cons] at htail ⊢
    rw [htail, hf]

/-- Witness for C5 (amended): with `injectAux` adding node 42 and the
node-preserving `adjustValidate` as the only adjust callback, the pass
keeps the augmented node list and the configuration context. -/
theorem adjustTopology_observes_augmented_nodes_witness :
    (runTopologyPass [injectAux] [adjustValidate] ⟨[1]⟩ ⟨0⟩).2 =
      (runInjectPhase [injectAux] (⟨[1]⟩, ⟨0⟩)).2 ∧
    (runTopologyPass [injectAux] [adjustValidate] ⟨[1]⟩ ⟨0⟩).1.nodes =
      (runInjectPhase [injectAux] (⟨[1]⟩, ⟨0⟩)).1.nodes :=
  adjustTopology_observes_augmented_nodes [injectAux] [adjustValidate] ⟨[1]⟩ ⟨0⟩
    (fun f hf w' => by
      rw [List.mem_singleton] at hf
      subst hf
      rfl)

/-- C7: each per-phase handle references the descriptor read-only
(`ServiceSpec const& spec` in the C++ struct), so invoking any of the
eight handle kinds leaves the handle's descriptor — name, kind and every
callback slot — exactly as it was. -/
theorem handles_keep_descriptor_immutable :
    (∀ (h : ServiceConfigureHandle) (c : InitContext), (h.invoke c).1.spec = h.spec) ∧
    (∀ (h : ServiceProcessingHandle) (c : ProcessingContext), (h.invoke c).1.spec = h.spec) ∧
    (∀ (h : ServiceDanglingHandle) (c : DanglingContext), (h.invoke c).1.spec = h.spec) ∧
    (∀ (h : ServiceEOSHandle) (c : EndOfStreamContext), (h.invoke c).1.spec = h.spec) ∧
    (∀ (h : ServiceDispatchingHandle) (c : ProcessingContext), (h.invoke c).1.spec = h.spec) ∧
    (∀ (h : ServiceStartHandle) (r : ServiceRegistry), (h.invoke r).1.spec = h.spec) ∧
    (∀ (h : ServiceStopHandle) (r : ServiceRegistry), (h.invoke r).1.spec = h.spec) ∧
    (∀ (h : ServiceExitHandle) (r : ServiceRegistry), (h.invoke r).1.spec = h.spec) :=
  ⟨fun _ _ => rfl, fun _ _ => rfl, fun _ _ => rfl, fun _ _ => rfl,
   fun _ _ => rfl, fun _ _ => rfl, fun _ _ => rfl, fun _ _ => rfl⟩

/-- Indexing a list at `findIdx p` yields exactly `find? p`: the
embedded counterpart of dereferencing the iterator returned by
`std::map::find` when it is not `end()`. -/
theorem getElem_findIdx_eq_find {α : Type} (p : α → Bool) (l : List α) :
    l[l.findIdx p]? = l.find? p := by
  induction l with
  | nil => rfl
  | cons a t ih =>
    cases h : p a with
    | true => simp [List.findIdx_cons, List.find?_cons, h]
    | false => simpa [List.findIdx_cons, List.find?_cons, h] using ih

/-- Counterexample for C6: the reader is not stateless — two call
histories over the same loaded input (`getData ⟨0,0⟩` versus
`getData ⟨0,0⟩; getNextData`) leave the event index and data map
identical, yet the same `getNextData` invocation returns different
results, because the outcome reads the iterator retained from earlier
calls. -/
theorem getNextData_history_dependent :
    rrHistA.mEvents = rrHistB.mEvents ∧ rrHistA.mData = rrHistB.mData ∧
    (getNextData rrHistA).1 ≠ (getNextData rrHistB).1 := by
  decide

/-- C6 (amended): while `getNextData` and `loadNextEvent` read retained
cursor state, `getData` is history-independent — its result and the
iterator position it establishes depend only on the loaded data map and
the queried pad position. -/
theorem getData_history_independent (r1 r2 : RawReaderState) (p : PadPos)
    (h : r1.mData = r2.mData) :
    (getData r1 p).1 = (getData r2 p).1 ∧
    (getData r1 p).2.mDataIterator = (getData r2 p).2.mDataIterator := by
  simp only [getData, h]
  cases hm : r2.mData[r2.mData.findIdx fun e => decide (e.1 = p)]? with
  | none => simp [hm]
  | some e => simp [hm]

/-- Witness for C6 (amended): the two concrete histories of the
counterexample agree on the data map, so `getData` gives them the same
answer and the same fresh iterator. -/
theorem getData_history_independent_witness :
    rrHistA.mData = rrHistB.mData ∧
    (getData rrHistA ⟨0, 0⟩).1 = (getData rrHistB ⟨0, 0⟩).1 ∧
    (getData rrHistA ⟨0, 0⟩).2.mDataIterator =
      (getData rrHistB ⟨0, 0⟩).2.mDataIterator :=
  ⟨by decide, getData_history_independent rrHistA rrHistB ⟨0, 0⟩ (by decide)⟩

/-- C8: on a reader with an empty event index both accessors dereference
the past-the-end iterator — `getFirstEvent` unconditionally and
`getLastEvent` precisely in its `size() == 0` branch — so neither has a
defined value there (`none` in the embedding), while on a populated
index they do return the smallest and the largest stored event
numbers. -/
theorem event_bounds_undefined_on_empty :
    getFirstEvent rrNoEvents = none ∧ getLastEvent rrNoEvents = none ∧
    getFirstEvent rrThreeEvents = some 3 ∧ getLastEvent rrThreeEvents = some 9 := by
  decide

/-- C9: `loadNextEvent` is definitionally `loadEvent(mLastEvent + 1)` —
the inline body of the source — returning the same success indicator and
the same post-state for every reader state and every decoder. -/
theorem loadNextEvent_eq_loadEvent_succ (decode : Nat → List (PadPos × List Nat))
    (r : RawReaderState) :
    (loadNextEvent decode r).1 = (loadEvent decode r (r.mLastEvent + 1)).1 ∧
    (loadNextEvent decode r).2 = (loadEvent decode r (r.mLastEvent + 1)).2 :=
  ⟨rfl, rfl⟩

/-- C10: `getData` never returns a null pointer — it yields the stored
ADC vector when the pad position is present and a newly created empty
vector otherwise — and it leaves the stored data map unchanged, while
`getNextData` returns null exactly when the traversal has reached the
end of the loaded data. -/
theorem getData_getNextData_contract :
    (∀ (r : RawReaderState) (p : PadPos), (getData r p).1 ≠ none) ∧
    (∀ (r : RawReaderState) (p : PadPos),
      (getData r p).1 =
        some ((((r.mData.find? fun e => decide (e.1 = p)).map (·.2)).getD []))) ∧
    (∀ (r : RawReaderState) (p : PadPos), (getData r p).2.mData = r.mData) ∧
    (∀ r : RawReaderState,
      (getNextData r).1 = none ↔ r.mData.length ≤ r.mDataIterator) := by
  refine ⟨?_, ?_, ?_, ?_⟩
  · intro r p
    simp only [getData]
    cases hm : r.mData[r.mData.findIdx fun e => decide (e.1 = p)]? with
    | none => simp [hm]
    | some e => simp [hm]
  · intro r p
    simp only [getData]
    rw [getElem_findIdx_eq_find]
    cases hm : r.mData.find? fun e => decide (e.1 = p) with
    | none => simp [hm]
    | some e => simp [hm]
  · intro r p
    simp only [getData]
    cases hm : r.mData[r.mData.findIdx fun e => decide (e.1 = p)]? with
    | none => simp [hm]
    | some e => simp [hm]
  · intro r
    cases hm : r.mData[r.mDataIterator]? with
    | none =>
      simp only [getNextData, hm]
      exact ⟨fun _ => List.getElem?_eq_none_iff.mp hm, fun _ => trivial⟩
    | some e =>
      simp only [getNextData, hm]
      constructor
      · intro hcontra
        exact Option.noConfusion hcontra
      · intro hle
        rw [List.getElem?_eq_none_iff.mpr hle] at hm
        exact Option.noConfusion hm
